import Mathlib

/-!
# Verification of the ODharmonizer omics-to-OMOP conversion pipeline

Shallow embedding of the conversion routines of
`ODconverter/converter_modules/omop_loader.py` (VCF genotype normalizer,
wide-to-long reshapers for expression and genomic matrices, fact-relationship
builder) and of `ODannotator/ga4gh/omop.py` (concurrent concept annotator),
together with theorems settling the specification claims about them.

Machine reals of the Python code are modelled as rationals (`ℚ`); Python
exceptions are modelled with `Except PyErr`; `None`/`NaN` cells are modelled
with `Option`.
-/

namespace ODharmonizer

/-- Python exceptions that the embedded code can raise. -/
inductive PyErr where
  | typeError
  | valueError
  | indexError
  | nameError
  | badGzipFile
  deriving Repr, DecidableEq

deriving instance DecidableEq for Except

/-! ### Executable string primitives

The Lean core `String` functions (`trim`, `splitOn`, `contains`, …) are
implemented with well-founded recursion over byte positions and do not reduce
inside the kernel, so the Python string operations used by the code are
re-implemented here by structural recursion over the character list of the
string.  All separators used by the code are single characters. -/

/-- ASCII whitespace, as stripped by Python `str.strip()`. -/
def isPySpace (c : Char) : Bool :=
  c = ' ' || c = '\t' || c = '\n' || c = '\r' || c = '\x0b' || c = '\x0c'

/-- Python `str.strip()` (whitespace trim at both ends). -/
def pyStrip (s : String) : String :=
  String.mk (((s.data.dropWhile isPySpace).reverse.dropWhile isPySpace).reverse)

/-- `c ∈ s` test on the character list. -/
def strContainsChar (s : String) (c : Char) : Bool := s.data.contains c

/-- Auxiliary for `pySplit`: split a character list on a separator character. -/
def splitChars (c : Char) : List Char → List Char → List (List Char)
  | [], acc => [acc.reverse]
  | x :: xs, acc =>
    if x = c then acc.reverse :: splitChars c xs [] else splitChars c xs (x :: acc)

/-- Python `s.split(c)` for a single-character separator `c`
(`"".split(c) = ['']`, separators at the ends produce empty fields). -/
def pySplit (s : String) (c : Char) : List String :=
  (splitChars c s.data []).map String.mk

/-- Python `sep.join(parts)` for a single-character separator. -/
def pyJoin (c : Char) (parts : List String) : String :=
  String.mk (List.intercalate [c] (parts.map String.data))

/-- Python `s.startswith(p)`. -/
def pyStartsWith (s p : String) : Bool := p.data.isPrefixOf s.data

/-! ## VCF genotype normalizer (`omop_loader.py`, `parse_genotype` / `evaluate_genotype`) -/

/-- Embedding of `OMOP_ODmapper.parse_genotype`:

```
if gt_raw.strip() in ['-1', '.', './.']: return None
for sep in ['/', '|']:
    if sep in gt_raw: return gt_raw.split(sep)
return None  # unexpected format
``` -/
def parse_genotype (gtRaw : String) : Option (List String) :=
  if pyStrip gtRaw = "-1" ∨ pyStrip gtRaw = "." ∨ pyStrip gtRaw = "./." then
    none
  else if strContainsChar gtRaw '/' then
    some (pySplit gtRaw '/')
  else if strContainsChar gtRaw '|' then
    some (pySplit gtRaw '|')
  else
    none

/-- Python `"/".join(xs)` over a list whose items may be `None`
(as produced by the allele-index conversion in `convert_vcf_to_row_col_format`):
raises `TypeError` as soon as an item is not a string. -/
def joinSlash (xs : List (Option String)) : Except PyErr String :=
  if xs.all Option.isSome then
    .ok (pyJoin '/' (xs.filterMap id))
  else
    .error .typeError

/-- Embedding of `OMOP_ODmapper.evaluate_genotype`:

```
if alleles is None: return "Missing"
alleles_str = "/".join(alleles)
if current_allele in alleles: status = "positive"
else: status = "negative"
return f"{alleles_str}_{status}"
```

`alleles` is either `None` or the list of decoded allele strings, where an
individual decoded allele may itself be `None` (undecodable index); in that
case the `join` raises `TypeError`. -/
def evaluate_genotype (alleles : Option (List (Option String)))
    (currentAllele : String) : Except PyErr String :=
  match alleles with
  | none => .ok "Missing"
  | some as_ =>
    match joinSlash as_ with
    | .error e => .error e
    | .ok allelesStr =>
      let status := if (some currentAllele) ∈ as_ then "positive" else "negative"
      .ok (allelesStr ++ "_" ++ status)

/-- Python `s.isdigit()` restricted to ASCII digits (the VCF GT field). -/
def pyIsDigit (s : String) : Bool := !s.data.isEmpty && s.data.all Char.isDigit

/-- Python `int(s)` on a string of ASCII digits. -/
def pyInt (s : String) : Nat :=
  s.data.foldl (fun n c => n * 10 + (c.toNat - 48)) 0

/-! ## VCF to wide matrix (`omop_loader.py`, `convert_vcf_to_row_col_format`) -/

/-- Embedding of `OMOP_ODmapper.parse_info`:

```
info_parts = dict(item.split('=') for item in info_field.split(';') if '=' in item)
omop_ids = info_parts.get('OMOP_Concept_IDs', '').split(',')
```

`dict(...)` raises `ValueError` when an item splits into more than two parts;
later duplicate keys overwrite earlier ones. -/
def parse_info (infoField : String) : Except PyErr (List String) := do
  let items := (pySplit infoField ';').filter (fun it => strContainsChar it '=')
  let pairs ← items.mapM (fun it =>
    match pySplit it '=' with
    | [k, v] => Except.ok (k, v)
    | _ => Except.error PyErr.valueError)
  let found := (pairs.reverse.find? (fun p => p.1 == "OMOP_Concept_IDs")).map Prod.snd
  Except.ok (pySplit (found.getD "") ',')

/-- The state threaded through the line loop of `convert_vcf_to_row_col_format`:
the sample ids seen on the `#CHROM` header line (if any yet) and the output
rows accumulated so far.  Each output row is
`[ID, OMOP_Concept_ID, call for sample 1, call for sample 2, ...]`. -/
structure ConvState where
  sampleIds : Option (List String)
  rows : List (List String)
  deriving Repr, DecidableEq

/-- One iteration of the `for line in f` loop of
`convert_vcf_to_row_col_format` (header collection, comment skipping, and the
per-record REF/ALT row construction). -/
def processVcfLine (st : ConvState) (line : String) : Except PyErr ConvState :=
  if pyStartsWith line "#CHROM" then
    Except.ok { st with sampleIds := some ((pySplit (pyStrip line) '\t').drop 9) }
  else if pyStartsWith line "#" then
    Except.ok st
  else do
    let fields := pySplit (pyStrip line) '\t'
    -- `chrom, pos, var_id, ref, alt, qual, filt, info, fmt = fields[:9]`
    -- raises ValueError when the line has fewer than 9 fields
    if fields.length < 9 then throw PyErr.valueError
    let varId := fields.getD 2 ""
    let ref := fields.getD 3 ""
    let alt := fields.getD 4 ""
    let info := fields.getD 7 ""
    let fmt := fields.getD 8 ""
    -- gt_index = fmt_fields.index('GT') if 'GT' in fmt_fields else 0
    let fmtFields := pySplit fmt ':'
    let gtIndex := if fmtFields.contains "GT" then fmtFields.indexOf "GT" else 0
    -- genotypes_raw = [g.split(':')[gt_index] for g in fields[9:]]  (IndexError possible)
    let genotypesRaw ← (fields.drop 9).mapM (fun g =>
      match (pySplit g ':').get? gtIndex with
      | some p => Except.ok p
      | none => Except.error PyErr.indexError)
    let altAlleles := pySplit alt ','
    let allAlleles := ref :: altAlleles
    let omopIds ← parse_info info
    let refId := if 1 ≤ omopIds.length then omopIds.getD 0 "" else "-"
    let altIds := if 1 < omopIds.length then omopIds.drop 1 else []
    -- alleles = [all_alleles[int(i)] if i.isdigit() and int(i) < len(all_alleles)
    --            else None for i in parsed]
    let converted : List (Option (List (Option String))) := genotypesRaw.map (fun gt =>
      (parse_genotype gt).map (fun parsed =>
        parsed.map (fun i =>
          if pyIsDigit i && pyInt i < allAlleles.length then allAlleles.get? (pyInt i)
          else none)))
    -- Process REF
    let refRows ← if refId ≠ "-" then do
        let calls ← converted.mapM (fun alleles => evaluate_genotype alleles ref)
        pure [[varId ++ "_" ++ ref, refId] ++ calls]
      else pure []
    -- Process each ALT
    let altRows ← (altAlleles.zip altIds).mapM (fun p =>
      if p.2 = "-" then pure none
      else do
        let calls ← converted.mapM (fun alleles => evaluate_genotype alleles p.1)
        pure (some ([varId ++ "_" ++ p.1, p.2] ++ calls)))
    Except.ok { st with rows := st.rows ++ refRows ++ altRows.reduceOption }

/-- The converter's output: the wide genotype matrix
(`pd.DataFrame(output_rows, columns=["ID", "OMOP_Concept_ID"] + sample_ids)`). -/
structure VcfOutput where
  sampleIds : List String
  rows : List (List String)
  deriving Repr, DecidableEq

/-- The body of `convert_vcf_to_row_col_format` applied to the decompressed
text lines: the line loop followed by the `pd.DataFrame` construction.
If no `#CHROM` line was seen, `sample_ids` is unbound and the final
`pd.DataFrame` expression raises `NameError`; a row whose width differs from
`2 + len(sample_ids)` makes the `pd.DataFrame` constructor raise. -/
def convert_vcf_content (lines : List String) : Except PyErr VcfOutput := do
  let st ← lines.foldlM processVcfLine ⟨none, []⟩
  match st.sampleIds with
  | none => throw PyErr.nameError
  | some sids =>
    if st.rows.all (fun r => r.length = 2 + sids.length) then
      pure ⟨sids, st.rows⟩
    else throw PyErr.valueError

/-- An input file for the converter: its logical text lines and whether the
bytes on disk are gzip-compressed. -/
structure VcfFile where
  lines : List String
  gzipped : Bool

/-- `gzip.open(vcf_path, "rt")` followed by iteration: yields the text lines
when the file is gzip-compressed, and raises `gzip.BadGzipFile` on the first
read when the file is plain text (there is no plain-text fallback: the
`open(vcf_path)` variant is commented out in the source). -/
def gzipOpenRt (f : VcfFile) : Except PyErr (List String) :=
  if f.gzipped then Except.ok f.lines else Except.error PyErr.badGzipFile

/-- Embedding of `OMOP_ODmapper.convert_vcf_to_row_col_format`. -/
def convert_vcf_to_row_col_format (f : VcfFile) : Except PyErr VcfOutput := do
  convert_vcf_content (← gzipOpenRt f)

/-! ## Wide-to-long reshapers
(`omop_loader.py`, `generate_genomic_measurement_dataframe` and
`generate_gex_measurement_dataframe`)

The two reshapers are embedded over explicit row lists.  A wide matrix is a
list of `(identifier, cells)` rows plus the ordered list of sample column
names; maps (`id_map`/`gene_map`, the `person_id` view of `person_map`, and
`specimen_map = dict(zip(specimen_df['person_id'], specimen_df['specimen_id']))`)
are modelled as lookup functions.  A measurement row carries the columns the
claims are about (`measurement_id`, identifiers, concept ids, value columns,
`specimen_id`); the pass-through metadata columns (dates, units, operator,
ranges, visit/provider ids) are copied from `person_map`/`obs_map` exactly
like `person_id` is and never influence a filter, an id assignment or a
fact-relationship row, so they are not repeated here. -/

/-- The pipeline-specific value columns `χ` of a measurement row, together
with the columns shared by both reshapers. -/
structure MRow (χ : Type) where
  measurementId : Option Int
  personSourceValue : String
  measurementSourceValue : String
  payload : χ
  personId : Option Int
  measurementConceptId : Option Int
  specimenId : Option Int
  deriving Repr, DecidableEq

/-- One cell of a melted (long-form) frame. -/
structure MeltCell (α : Type) where
  id : String
  psv : String
  value : α
  deriving Repr, DecidableEq

/-- `df.melt(id_vars=id_col, var_name='person_source_value', ...)`:
pandas stacks the value columns one after the other, so the long frame lists,
for each sample column in order, all identifier rows in order. -/
def melt {α : Type} (rows : List (String × List α)) (samples : List String)
    (dflt : α) : List (MeltCell α) :=
  samples.enum.flatMap (fun js => rows.map (fun r => ⟨r.1, js.2, r.2.getD js.1 dflt⟩))

/-- One generated fact_relationship row. -/
structure FactRelationshipRow where
  domainConceptId1 : Int
  factId1 : Option Int
  domainConceptId2 : Int
  factId2 : Option Int
  relationshipConceptId : Int
  deriving Repr, DecidableEq

/-- The Measurement→Specimen fact_relationship row
(1147330 = Measurement, 1147306 = Specimen, 32668 = Measurement to Specimen). -/
def frForward (mid sid : Option Int) : FactRelationshipRow :=
  ⟨1147330, mid, 1147306, sid, 32668⟩

/-- The Specimen→Measurement fact_relationship row
(32669 = Specimen to Measurement). -/
def frReverse (mid sid : Option Int) : FactRelationshipRow :=
  ⟨1147306, sid, 1147330, mid, 32669⟩

/-- `long_df['measurement_id'] = range(start_index, start_index + len(long_df))`. -/
def assignIds {χ : Type} (s : Int) : List (MRow χ) → List (MRow χ)
  | [] => []
  | r :: rs => { r with measurementId := some s } :: assignIds (s + 1) rs

/-- The id-assignment step of both reshapers: sequential ids from
`start_index` when one is given, otherwise `measurement_id = None`. -/
def assignMeasurementIds {χ : Type} (start : Option Int) (rows : List (MRow χ)) :
    List (MRow χ) :=
  match start with
  | some s => assignIds s rows
  | none => rows.map (fun r => { r with measurementId := none })

/-- `long_df['specimen_id'] = long_df['person_id'].map(specimen_map)`
(a null `person_id`, or a person without specimen, gives a null specimen). -/
def attachSpecimenId {χ : Type} (specimenMap : Int → Option Int) (r : MRow χ) : MRow χ :=
  { r with specimenId := r.personId.bind specimenMap }

/-- The common tail of both reshapers (the source duplicates these lines
verbatim in `generate_gex_measurement_dataframe` and
`generate_genomic_measurement_dataframe`):

1. drop rows whose `measurement_concept_id` is null,
2. assign `measurement_id` (sequential from `start_index`, else null),
3. attach `specimen_id` via `specimen_map` and drop rows where it is null,
4. build the fact_relationship frame as the concatenation of the
   Measurement→Specimen rows and the Specimen→Measurement rows of the
   remaining frame. -/
def tailMeasurement {χ : Type} (start : Option Int) (specimenMap : Int → Option Int)
    (long : List (MRow χ)) : List (MRow χ) :=
  ((assignMeasurementIds start (long.filter (fun r => r.measurementConceptId.isSome))).map
    (attachSpecimenId specimenMap)).filter (fun r => r.specimenId.isSome)

/-- The measurement and fact_relationship frames produced by the common tail
(`tailMeasurement` holds steps 1–3; the fact_relationship concatenation is
step 4). -/
def measurementTail {χ : Type} (start : Option Int) (specimenMap : Int → Option Int)
    (long : List (MRow χ)) : List (MRow χ) × List FactRelationshipRow :=
  (tailMeasurement start specimenMap long,
    (tailMeasurement start specimenMap long).map
      (fun r => frForward r.measurementId r.specimenId) ++
    (tailMeasurement start specimenMap long).map
      (fun r => frReverse r.measurementId r.specimenId))

/-! ### Genomic reshaper -/

/-- The genomic wide matrix passed to
`generate_genomic_measurement_dataframe` (after `vcf2measurement.py` has
dropped the `OMOP_Concept_ID` column): identifier rows of per-sample cells,
a cell being either a `"{alleles}_{status}"`/`"Missing"` string or `NaN`. -/
structure GenWide where
  rows : List (String × List (Option String))
  samples : List String

/-- The genomic value columns of a long row. -/
structure GenPayload where
  valueSourceValue : String
  status : Option String
  valueAsNumber : Option Int
  valueAsConceptId : Option Int
  deriving Repr, DecidableEq

/-- Number of columns produced by
`long_df['genomic_value'].str.split('_', expand=True)`: the maximum number of
split parts over the present cells (a `NaN` cell occupies one column). -/
def splitWidth (cells : List (Option String)) : Nat :=
  (cells.map (fun c => match c with
    | some v => (pySplit v '_').length
    | none => 1)).foldr max 0

/-- The two columns the expanded split assigns to
`value_source_value` and `status` for one cell (valid when `splitWidth = 2`):
a `NaN` cell gives two nulls, a one-part cell (such as the bare `"Missing"`
produced by the normalizer) puts its only part in the first column and null
in the second. -/
def splitCell (c : Option String) : Option String × Option String :=
  match c with
  | none => (none, none)
  | some v => ((pySplit v '_').get? 0, (pySplit v '_').get? 1)

/-- `status_map = {'positive': 9191, 'negative': 9189, 'Missing': None}`,
applied with `Series.map`: the explicit `None` for `'Missing'` and the `NaN`
produced for a key outside the dict (including a null status) coincide. -/
def statusToConceptId (st : Option String) : Option Int :=
  match st with
  | some s => if s = "positive" then some 9191 else if s = "negative" then some 9189 else none
  | none => none

/-- `value_map = {'positive': 1, 'negative': 0, 'Missing': -1}`, applied with
`Series.map` (a key outside the dict, including a null status, gives `NaN`). -/
def statusToValueAsNumber (st : Option String) : Option Int :=
  match st with
  | some s =>
    if s = "positive" then some 1
    else if s = "negative" then some 0
    else if s = "Missing" then some (-1)
    else none
  | none => none

/-- Steps 1–3 of `generate_genomic_measurement_dataframe`: melt, split the
`genomic_value` cell into `value_source_value` and `status` (the two-column
assignment raises `ValueError` when the expanded split does not have exactly
two columns), map the status to `value_as_concept_id`/`value_as_number`,
default a null `value_source_value` to `"./."`, and attach
`person_id`/`measurement_concept_id` from the lookup maps. -/
def genomicLongRows (w : GenWide) (idMap : String → Option Int)
    (personIdMap : String → Option Int) : Except PyErr (List (MRow GenPayload)) :=
  let cells := melt w.rows w.samples none
  if splitWidth (cells.map (·.value)) = 2 then
    .ok (cells.map (fun c =>
      let vs := splitCell c.value
      { measurementId := none
        personSourceValue := c.psv
        measurementSourceValue := c.id
        payload := { valueSourceValue := (vs.1).getD "./."
                     status := vs.2
                     valueAsNumber := statusToValueAsNumber vs.2
                     valueAsConceptId := statusToConceptId vs.2 }
        personId := personIdMap c.psv
        measurementConceptId := idMap c.id
        specimenId := none }))
  else
    .error .valueError

/-- Embedding of `OMOP_ODmapper.generate_genomic_measurement_dataframe`. -/
def generate_genomic_measurement_dataframe (w : GenWide) (idMap : String → Option Int)
    (personIdMap : String → Option Int) (specimenMap : Int → Option Int)
    (start : Option Int) :
    Except PyErr (List (MRow GenPayload) × List FactRelationshipRow) :=
  (genomicLongRows w idMap personIdMap).map (measurementTail start specimenMap)

/-! ### Expression (gex) reshaper -/

/-- The expression wide matrix: gene rows of per-sample raw values.  Machine
floats are modelled as rationals; the matrix is assumed `NaN`-free (the mean
and standard deviation of the source skip `NaN`s, which never arise here). -/
structure GexWide where
  rows : List (String × List ℚ)
  samples : List String

/-- `data_only.mean(axis=1)` for one gene row. -/
def rowMean (l : List ℚ) : ℚ := l.sum / l.length

/-- Sum of squared deviations from the row mean. -/
def sumSqDev (l : List ℚ) : ℚ := (l.map (fun x => (x - rowMean l) ^ 2)).sum

/-- The square of `data_only.std(axis=1)`: pandas `std` uses the
sample-corrected divisor `n - 1` (`ddof=1`) by default. -/
def varSamp (l : List ℚ) : ℚ := sumSqDev l / ((l.length : ℚ) - 1)

/-- The square of `data_only.std(axis=1).replace(0, np.nan)`: the variance
with zero replaced by null.  (For `n ≤ 1` pandas produces `NaN` directly; in
this embedding those rows give `varSamp = 0` by the division-by-zero
convention of `ℚ` and are likewise replaced by null.)  The z-score of a cell
`x` is `(x - rowMean) / √varSamp`; since the square root is irrational the
embedding carries the pair (numerator, variance) and compares via squares. -/
def stdSqReplaced (l : List ℚ) : Option ℚ :=
  if varSamp l = 0 then none else some (varSamp l)

/-- `high_concept_id=4084765` (default argument of the gex reshaper). -/
def high_concept_id : Int := 4084765

/-- `low_concept_id=4083207` (default argument of the gex reshaper). -/
def low_concept_id : Int := 4083207

/-- `ref_concept_id=4084764` (default argument of the gex reshaper). -/
def ref_concept_id : Int := 4084764

/-- The literal `classify(z)` closure of
`generate_gex_measurement_dataframe`, on a rational z-score value:

```
if pd.isna(z): return None
if z > 1: return high_concept_id
elif z < -1: return low_concept_id
else: return ref_concept_id
``` -/
def classify (z : Option ℚ) : Option Int :=
  match z with
  | none => none
  | some z =>
    if z > 1 then some high_concept_id
    else if z < -1 then some low_concept_id
    else some ref_concept_id

/-- `classify(z)` applied to the pair representation `z = num / √v`
(`v > 0` whenever present): `z > 1 ↔ num > 0 ∧ num² > v` and
`z < -1 ↔ num < 0 ∧ num² > v` (see `classifyZ_matches_real`). -/
def classifyZ (num : ℚ) (varS : Option ℚ) : Option Int :=
  match varS with
  | none => none
  | some v =>
    if 0 < num ∧ v < num ^ 2 then some high_concept_id
    else if num < 0 ∧ v < num ^ 2 then some low_concept_id
    else some ref_concept_id

/-- `classify` applied to one merged z-cell (an absent merge partner is a
`NaN` z-score). -/
def classifyCell (zc : Option (ℚ × Option ℚ)) : Option Int :=
  match zc with
  | none => none
  | some p => classifyZ p.1 p.2

/-- The expression value columns of a long row: the raw value, the z-score in
pair representation (`none` = `NaN`; otherwise `(x - rowMean, varSamp)` with
the float z-score being `num / √varS`), and the classification. -/
structure GexPayload where
  valueAsNumber : ℚ
  zscore : Option (ℚ × Option ℚ)
  valueAsConceptId : Option Int
  deriving Repr, DecidableEq

/-- Steps 1–4 of `generate_gex_measurement_dataframe`: per-gene z-scores
(pair representation), melt of both the raw and the z-score matrix, the
left-merge of the two long frames on `(gene, person_source_value)` (all
matches of the key, in order; a left row without partner keeps a null
z-score), classification, and the `person_id`/`measurement_concept_id`
lookups. -/
def gexLongRows (w : GexWide) (geneMap : String → Option Int)
    (personIdMap : String → Option Int) : List (MRow GexPayload) :=
  let longExpr := melt w.rows w.samples 0
  let zRows := w.rows.map (fun r => (r.1, r.2.map (fun x => (x - rowMean r.2, stdSqReplaced r.2))))
  let longZ := melt zRows w.samples (0, none)
  let merged := longExpr.flatMap (fun e =>
    let ms := longZ.filter (fun z => z.id == e.id && z.psv == e.psv)
    if ms.isEmpty then [(e, none)] else ms.map (fun z => (e, some z.value)))
  merged.map (fun p =>
    { measurementId := none
      personSourceValue := p.1.psv
      measurementSourceValue := p.1.id
      payload := { valueAsNumber := p.1.value
                   zscore := p.2
                   valueAsConceptId := classifyCell p.2 }
      personId := personIdMap p.1.psv
      measurementConceptId := geneMap p.1.id
      specimenId := none })

/-- Embedding of `OMOP_ODmapper.generate_gex_measurement_dataframe`. -/
def generate_gex_measurement_dataframe (w : GexWide) (geneMap : String → Option Int)
    (personIdMap : String → Option Int) (specimenMap : Int → Option Int)
    (start : Option Int) : List (MRow GexPayload) × List FactRelationshipRow :=
  measurementTail start specimenMap (gexLongRows w geneMap personIdMap)

/-- The square of the z-score the code computes for a cell `x` of a gene row
`l` (`None` when the replaced standard deviation is null). -/
def zscoreSq (x : ℚ) (l : List ℚ) : Option ℚ :=
  (stdSqReplaced l).map (fun v => (x - rowMean l) ^ 2 / v)

/-- Modelled from the spec: the population variance (divisor `n`, "population
std, not sample-corrected") that the specification claims as the z-score
denominator.  Kept for comparison with the code's `varSamp`. -/
def specVarPop (l : List ℚ) : ℚ := sumSqDev l / (l.length : ℚ)

/-- Modelled from the spec: the square of the z-score as the specification
words it, `(value - row mean) / population standard deviation`, null when
that standard deviation is zero. -/
def specZscoreSq (x : ℚ) (l : List ℚ) : Option ℚ :=
  if specVarPop l = 0 then none else some ((x - rowMean l) ^ 2 / specVarPop l)

/-! ## Concept annotator (`ODannotator/ga4gh/omop.py` and the gene lookup of
`omop_loader.py`) -/

/-- The outcome of one HTTP GET against the concept mapping API, as observed
by the caller: a response with its status code and the `concept_id` field of
the JSON body (`none` when the body lacks the field, the field is null, or
the body is not a JSON object), or a raised network/timeout exception. -/
inductive ApiOutcome where
  | resp (status : Nat) (conceptId : Option Int)
  | exn
  deriving Repr, DecidableEq

/-- Embedding of `fetch_concept` (the per-key lookup closure of
`OMOPAnnotator._get_omop_data`), as a function of the key and the API outcome
for that key:

```
if vrs_id == "-": return vrs_id, "-"
try:
    response = _session.get(url, verify=False, timeout=10)
    if response.status_code == 200:
        data = response.json()
        concept_id = data.get("concept_id") if data else "-"
        return vrs_id, concept_id or "-"
    else:
        return vrs_id, "-"
except Exception as e:
    return vrs_id, "-"
```

`none` in the result models the `"-"` sentinel.  `concept_id or "-"` yields
the sentinel whenever `concept_id` is falsy — absent, null, or the integer
`0` — which the `n = 0` branch mirrors. -/
def fetch_concept (vrsId : String) (r : ApiOutcome) : String × Option Int :=
  if vrsId = "-" then (vrsId, none)
  else
    match r with
    | .resp status conceptId =>
      if status = 200 then
        match conceptId with
        | some n => if n = 0 then (vrsId, none) else (vrsId, some n)
        | none => (vrsId, none)
      else (vrsId, none)
    | .exn => (vrsId, none)

/-- Embedding of `OMOP_ODmapper.get_concept_id` (the per-gene lookup of the
expression converter; `None` is its not-found sentinel):

```
try:
    response = requests.get(f"{self.api_url}{gene}")
    if response.status_code == 200:
        return response.json().get('concept_id')
except Exception as e:
    print(...)
return None
``` -/
def get_concept_id (r : ApiOutcome) : Option Int :=
  match r with
  | .resp status conceptId => if status = 200 then conceptId else none
  | .exn => none

/-! ## Concurrent VCF annotation ordering (`OMOPAnnotator.annotate`)

`annotate` submits one task per record (keyed by its enumeration index),
collects the finished futures into a dict `results[idx] = ...` in whatever
order they complete, and only after all futures have completed writes the
output with `for idx in range(len(results))`.  The embedding makes the
completion order an explicit parameter: any permutation of the indices.
`process_record` catches every exception and still returns a value for its
index, so the per-record annotation is modelled as a total function. -/

/-- The `results` dict built in completion order: for each completed index,
the pair `(idx, annotated record)`. -/
def collectResults {α β : Type} (f : α → β) (records : List α) (order : List Nat) :
    List (Nat × β) :=
  order.filterMap (fun i => (records[i]?).map (fun r => (i, f r)))

/-- `len(results)`: the number of distinct keys of the dict. -/
def dictLen {β : Type} (results : List (Nat × β)) : Nat :=
  (results.map Prod.fst).dedup.length

/-- The output loop `for idx in range(len(results)): ... results[idx]`. -/
def writeOutput {β : Type} (results : List (Nat × β)) : List (Option β) :=
  (List.range (dictLen results)).map (fun i => (results.find? (fun p => p.1 == i)).map Prod.snd)

/-- Embedding of the collect-then-write structure of `OMOPAnnotator.annotate`:
the output is produced only from the fully collected `results` dict. -/
def annotateOrdered {α β : Type} (f : α → β) (records : List α) (order : List Nat) :
    List (Option β) :=
  writeOutput (collectResults f records order)

/-! ## Specification notions used by the claim statements -/

/-- The sequence of measurement ids `range(s, s + n)` produced by the
id-assignment step. -/
def seqIds (s : Int) : Nat → List (Option Int)
  | 0 => []
  | n + 1 => some s :: seqIds (s + 1) n

/-- Correctness of a generated fact_relationship table with respect to its
measurement table: it holds `2·n` rows; for every measurement row there is
exactly one row carrying its `measurement_id` in the Measurement slot of the
Measurement→Specimen direction and exactly one in the Measurement slot of the
Specimen→Measurement direction, each being the full expected row; and every
row of the table is one of these two for some measurement row. -/
def frTableCorrect {χ : Type} (meas : List (MRow χ)) (fr : List FactRelationshipRow) : Prop :=
  fr.length = 2 * meas.length ∧
  (∀ r ∈ meas,
    fr.countP (fun x => decide (x.domainConceptId1 = 1147330 ∧ x.factId1 = r.measurementId)) = 1 ∧
    fr.countP (fun x => decide (x.domainConceptId2 = 1147330 ∧ x.factId2 = r.measurementId)) = 1 ∧
    fr.count (frForward r.measurementId r.specimenId) = 1 ∧
    fr.count (frReverse r.measurementId r.specimenId) = 1) ∧
  (∀ x ∈ fr, ∃ r ∈ meas,
    x = frForward r.measurementId r.specimenId ∨ x = frReverse r.measurementId r.specimenId)

/-! # Theorems settling the claims -/

/-- **C3** (code_bug evidence): the slash-separated and bare missing literals
(`./.`, `-1`, `.`) are classified `Missing` with no allele decomposition, but
the pipe-separated missing form `.|.` is not: `parse_genotype` decomposes it
into the two pseudo-alleles `"."`, `"."`; inside
`convert_vcf_to_row_col_format` those decode to `[None, None]` and
`evaluate_genotype` raises `TypeError` (standalone it would even label the
call `"./._negative"`), so the whole conversion crashes on a phased missing
genotype instead of emitting `Missing`. -/
theorem missing_genotype_pipe_form_not_missing :
    parse_genotype "./." = none ∧ parse_genotype "-1" = none ∧ parse_genotype "." = none ∧
    evaluate_genotype none "A" = .ok "Missing" ∧
    parse_genotype ".|." = some [".", "."] ∧
    evaluate_genotype (some [none, none]) "A" = .error .typeError ∧
    convert_vcf_content
      ["#CHROM\tPOS\tID\tREF\tALT\tQUAL\tFILTER\tINFO\tFORMAT\tS1",
       "1\t100\trs1\tA\tG\t.\t.\tOMOP_Concept_IDs=100,200\tGT\t.|."] =
      .error .typeError := by
  decide

/-- **C10**: a per-sample genotype string that is not one of the missing
literals and contains neither a `/` nor a `|` separator (e.g. a haploid call
`0`) is treated exactly like a missing genotype: `parse_genotype` returns
`None` without decomposing, and `evaluate_genotype` then encodes the call as
`Missing` for every tested allele. -/
theorem separatorless_genotype_is_missing (gt allele : String)
    (h1 : pyStrip gt ≠ "-1") (h2 : pyStrip gt ≠ ".") (h3 : pyStrip gt ≠ "./.")
    (h4 : strContainsChar gt '/' = false) (h5 : strContainsChar gt '|' = false) :
    parse_genotype gt = none ∧ evaluate_genotype none allele = .ok "Missing" := by
  refine ⟨?_, rfl⟩
  simp [parse_genotype, h1, h2, h3, h4, h5]

/-- Witness for **C10** at the haploid call `0`. -/
theorem separatorless_genotype_is_missing_witness :
    parse_genotype "0" = none ∧ evaluate_genotype none "A" = .ok "Missing" :=
  separatorless_genotype_is_missing "0" "A" (by decide) (by decide) (by decide)
    (by decide) (by decide)

/-- **C5**: a z-score exactly equal to `1` or `-1` is classified as the
reference-range concept, never high or low — the comparisons `z > 1` and
`z < -1` are strict.  Stated both for the literal `classify` closure on a
rational z-score value and for its pair representation used by the embedded
pipeline (`z = num / √v`, where `z = ±1` means `num² = v`). -/
theorem zscore_boundary_is_reference :
    (∀ z : ℚ, z = 1 ∨ z = -1 → classify (some z) = some ref_concept_id) ∧
    (∀ num v : ℚ, 0 < v → num ^ 2 = v → classifyZ num (some v) = some ref_concept_id) := by
  constructor
  · rintro z (rfl | rfl) <;> decide
  · intro num v _ h
    subst h
    simp [classifyZ, lt_irrefl]

/-- Witness for **C5** at `z = 1`, `z = -1` and at the pair form `(1, 1)`. -/
theorem zscore_boundary_is_reference_witness :
    classify (some 1) = some ref_concept_id ∧
    classify (some (-1)) = some ref_concept_id ∧
    classifyZ 1 (some 1) = some ref_concept_id :=
  ⟨zscore_boundary_is_reference.1 1 (Or.inl rfl),
   zscore_boundary_is_reference.1 (-1) (Or.inr rfl),
   zscore_boundary_is_reference.2 1 1 (by norm_num) (by norm_num)⟩

/-- **C7** (counterexample): the claim says a successful 200 response yields
the `concept_id` value of the JSON body, but the VCF annotator's
`fetch_concept` computes `concept_id or "-"`, so the falsy concept id `0`
(OMOP's "No matching concept") from a 200 response is replaced by the
not-found sentinel instead of being returned. -/
theorem fetch_concept_zero_becomes_sentinel :
    fetch_concept "v1" (.resp 200 (some 0)) = ("v1", none) ∧
    ("v1", (none : Option Int)) ≠ ("v1", some 0) := by
  decide

/-- **C7** (amended): every failure mode — raised exception, non-200 status,
200 body without a usable `concept_id` — yields the per-key not-found
sentinel in both lookup functions rather than raising; a 200 response yields
the body's `concept_id` value, except that `fetch_concept` additionally maps
a falsy value (`0`, null, absent) to its `"-"` sentinel, while
`get_concept_id` returns the field as is. -/
theorem concept_lookup_failure_modes :
    (∀ v : String, v ≠ "-" → fetch_concept v .exn = (v, none)) ∧
    (∀ (v : String) (st : Nat) (c : Option Int), v ≠ "-" → st ≠ 200 →
      fetch_concept v (.resp st c) = (v, none)) ∧
    (∀ v : String, v ≠ "-" → fetch_concept v (.resp 200 none) = (v, none)) ∧
    (∀ (v : String) (n : Int), v ≠ "-" → n ≠ 0 →
      fetch_concept v (.resp 200 (some n)) = (v, some n)) ∧
    (∀ v : String, v ≠ "-" → fetch_concept v (.resp 200 (some 0)) = (v, none)) ∧
    get_concept_id .exn = none ∧
    (∀ (st : Nat) (c : Option Int), st ≠ 200 → get_concept_id (.resp st c) = none) ∧
    (∀ c : Option Int, get_concept_id (.resp 200 c) = c) := by
  refine ⟨?_, ?_, ?_, ?_, ?_, rfl, ?_, ?_⟩
  · intro v hv; simp [fetch_concept, hv]
  · intro v st c hv hst; simp [fetch_concept, hv, hst]
  · intro v hv; simp [fetch_concept, hv]
  · intro v n hv hn; simp [fetch_concept, hv, hn]
  · intro v hv; simp [fetch_concept, hv]
  · intro st c hst; simp [get_concept_id, hst]
  · intro c; simp [get_concept_id]

/-- Witness for **C7** (amended) at concrete keys and outcomes. -/
theorem concept_lookup_failure_modes_witness :
    fetch_concept "vrs1" .exn = ("vrs1", none) ∧
    fetch_concept "vrs1" (.resp 404 (some 5)) = ("vrs1", none) ∧
    fetch_concept "vrs1" (.resp 200 none) = ("vrs1", none) ∧
    fetch_concept "vrs1" (.resp 200 (some 55)) = ("vrs1", some 55) ∧
    fetch_concept "vrs1" (.resp 200 (some 0)) = ("vrs1", none) ∧
    get_concept_id (.resp 500 (some 5)) = none ∧
    get_concept_id (.resp 200 (some 0)) = some 0 :=
  ⟨concept_lookup_failure_modes.1 "vrs1" (by decide),
   concept_lookup_failure_modes.2.1 "vrs1" 404 (some 5) (by decide) (by decide),
   concept_lookup_failure_modes.2.2.1 "vrs1" (by decide),
   concept_lookup_failure_modes.2.2.2.1 "vrs1" 55 (by decide) (by decide),
   concept_lookup_failure_modes.2.2.2.2.1 "vrs1" (by decide),
   concept_lookup_failure_modes.2.2.2.2.2.2.1 500 (some 5) (by decide),
   concept_lookup_failure_modes.2.2.2.2.2.2.2 (some 0)⟩

/-- **C9** (counterexample): the converter reads its input with
`gzip.open(vcf_path, "rt")` only — on a well-formed plain-text VCF it raises
`BadGzipFile` instead of succeeding, while the gzip-compressed form of the
same content converts fine, so plain and gzip-compressed inputs are *not*
interchangeable. -/
theorem convert_plain_text_vcf_fails :
    convert_vcf_to_row_col_format
      ⟨["##fileformat=VCFv4.2",
        "#CHROM\tPOS\tID\tREF\tALT\tQUAL\tFILTER\tINFO\tFORMAT\tS1\tS2",
        "1\t100\trs1\tA\tG\t.\t.\tOMOP_Concept_IDs=100,200\tGT\t0/1\t1/1"], false⟩ =
      .error .badGzipFile ∧
    convert_vcf_to_row_col_format
      ⟨["##fileformat=VCFv4.2",
        "#CHROM\tPOS\tID\tREF\tALT\tQUAL\tFILTER\tINFO\tFORMAT\tS1\tS2",
        "1\t100\trs1\tA\tG\t.\t.\tOMOP_Concept_IDs=100,200\tGT\t0/1\t1/1"], true⟩ =
      .ok ⟨["S1", "S2"],
        [["rs1_A", "100", "A/G_positive", "G/G_negative"],
         ["rs1_G", "200", "A/G_positive", "G/G_positive"]]⟩ := by
  decide

/-- **C9** (amended): compression is mandatory, not optional — for every
input content, the gzip-compressed file is processed exactly as the pure
line-level conversion prescribes, while the plain-text file with the same
content always fails with `BadGzipFile` before any content is read. -/
theorem convert_vcf_gzip_only (lines : List String) :
    convert_vcf_to_row_col_format ⟨lines, true⟩ = convert_vcf_content lines ∧
    convert_vcf_to_row_col_format ⟨lines, false⟩ = .error .badGzipFile :=
  ⟨rfl, rfl⟩

/-- **C4** (code_bug evidence): the status dictionaries of the genomic
reshaper do map `positive→1/9191`, `negative→0/9189`, `Missing→-1/null` —
but the split `genomic_value.str.split('_', expand=True)` puts the bare
`"Missing"` cell produced by the normalizer into the *first* column
(`value_source_value`), leaving `status` null: such a row therefore gets
`value_as_number = null` (not `-1`), `value_as_concept_id = null`, and
`value_source_value = "Missing"` (not `"./."` — the `"./."` default only
fires for `NaN` cells).  The `'Missing'` entries of the dictionaries are
unreachable for normalizer-produced cells. -/
theorem genomic_missing_cell_misrouted :
    statusToValueAsNumber (some "positive") = some 1 ∧
    statusToValueAsNumber (some "negative") = some 0 ∧
    statusToValueAsNumber (some "Missing") = some (-1) ∧
    statusToConceptId (some "positive") = some 9191 ∧
    statusToConceptId (some "negative") = some 9189 ∧
    statusToConceptId (some "Missing") = none ∧
    splitCell (some "Missing") = (some "Missing", none) ∧
    splitCell none = (none, none) ∧
    genomicLongRows ⟨[("v1", [some "A/G_positive", some "Missing"])], ["S1", "S2"]⟩
        (fun g => if g = "v1" then some 100 else none)
        (fun p => if p = "S1" then some 1 else if p = "S2" then some 2 else none) =
      .ok [⟨none, "S1", "v1", ⟨"A/G", some "positive", some 1, some 9191⟩,
             some 1, some 100, none⟩,
           ⟨none, "S2", "v1", ⟨"Missing", none, none, none⟩,
             some 2, some 100, none⟩] := by
  decide

/-! ### C8: output ordering of the concurrent annotator -/

theorem collectResults_cons {α β : Type} (f : α → β) (records : List α)
    (j : Nat) (os : List Nat) (hj : j < records.length) :
    collectResults f records (j :: os) =
      (j, f (records.get ⟨j, hj⟩)) :: collectResults f records os := by
  simp [collectResults, List.filterMap_cons, List.getElem?_eq_getElem hj]

theorem collectResults_map_fst {α β : Type} (f : α → β) (records : List α) :
    ∀ order : List Nat, (∀ i ∈ order, i < records.length) →
      (collectResults f records order).map Prod.fst = order := by
  intro order
  induction order with
  | nil => intro _; rfl
  | cons j os ih =>
    intro h
    have hj : j < records.length := h j (List.mem_cons_self _ _)
    rw [collectResults_cons f records j os hj, List.map_cons]
    exact congrArg (j :: ·) (ih (fun i hi => h i (List.mem_cons_of_mem _ hi)))

theorem collectResults_find? {α β : Type} (f : α → β) (records : List α) (i : Nat) :
    ∀ order : List Nat, i ∈ order → (∀ j ∈ order, j < records.length) →
      (collectResults f records order).find? (fun p => p.1 == i) =
        (records[i]?).map (fun r => (i, f r)) := by
  intro order
  induction order with
  | nil => intro h; simp at h
  | cons j os ih =>
    intro hi h
    have hj : j < records.length := h j (List.mem_cons_self _ _)
    rw [collectResults_cons f records j os hj]
    by_cases hji : j = i
    · subst hji
      rw [List.find?_cons_of_pos _ (by simp)]
      simp [List.getElem?_eq_getElem hj, List.get_eq_getElem]
    · have hio : i ∈ os := by
        rcases List.mem_cons.mp hi with h' | h'
        · exact absurd h'.symm hji
        · exact h'
      rw [List.find?_cons_of_neg _ (by simp [hji])]
      exact ih hio (fun k hk => h k (List.mem_cons_of_mem _ hk))

theorem range_map_getElem? {α β : Type} (f : α → β) (records : List α) :
    (List.range records.length).map (fun i => (records[i]?).map f) =
      records.map (fun r => some (f r)) := by
  induction records with
  | nil => rfl
  | cons a l ih =>
    rw [List.length_cons, List.range_succ_eq_map, List.map_cons, List.map_map]
    simp only [Function.comp_def, List.getElem?_cons_succ, List.getElem?_cons_zero,
      Option.map_some', List.map_cons]
    exact congrArg (some (f a) :: ·) ih

/-- **C8**: although the per-record annotation tasks may complete in any
order (any permutation of the record indices), `annotate` collects results
into an index-keyed dict and writes output only afterwards, by increasing
index — so the annotated records appear in exactly the original input
order. -/
theorem annotate_output_preserves_record_order {α β : Type} (f : α → β)
    (records : List α) (order : List Nat)
    (hperm : order.Perm (List.range records.length)) :
    annotateOrdered f records order = records.map (fun r => some (f r)) := by
  have hlt : ∀ i ∈ order, i < records.length := fun i hi =>
    List.mem_range.mp (hperm.subset hi)
  have hnodup : order.Nodup := hperm.nodup_iff.mpr (List.nodup_range _)
  have hkeys : (collectResults f records order).map Prod.fst = order :=
    collectResults_map_fst f records order hlt
  have hlen : dictLen (collectResults f records order) = records.length := by
    unfold dictLen
    rw [hkeys, List.dedup_eq_self.mpr hnodup, hperm.length_eq, List.length_range]
  unfold annotateOrdered writeOutput
  rw [hlen, ← range_map_getElem? f records]
  apply List.map_congr_left
  intro i hi
  have hi' : i < records.length := List.mem_range.mp hi
  have hio : i ∈ order := hperm.mem_iff.mpr (List.mem_range.mpr hi')
  rw [collectResults_find? f records i order hio hlt]
  cases records[i]? <;> rfl

/-- Witness for **C8**: three records completing in the order 2, 0, 1 are
still written out as records 0, 1, 2. -/
theorem annotate_output_preserves_record_order_witness :
    annotateOrdered (fun s : String => s.data.length) ["aa", "b", "ccc"] [2, 0, 1] =
      [some 2, some 1, some 3] :=
  annotate_output_preserves_record_order (fun s : String => s.data.length)
    ["aa", "b", "ccc"] [2, 0, 1] (by decide)

/-! ### C1/C2: measurement ids and the fact_relationship table -/

theorem attachSpecimenId_measurementId {χ : Type} (m : Int → Option Int) (r : MRow χ) :
    (attachSpecimenId m r).measurementId = r.measurementId := rfl

theorem assignIds_map_measurementId {χ : Type} :
    ∀ (l : List (MRow χ)) (s : Int),
      (assignIds s l).map (·.measurementId) = seqIds s l.length := by
  intro l
  induction l with
  | nil => intro s; rfl
  | cons r rs ih =>
    intro s
    simp only [assignIds, List.map_cons, List.length_cons, seqIds, ih]

theorem mem_seqIds : ∀ (n : Nat) (s : Int) (a : Option Int),
    a ∈ seqIds s n → ∃ i : Nat, i < n ∧ a = some (s + (i : Int)) := by
  intro n
  induction n with
  | zero => intro s a h; simp [seqIds] at h
  | succ m ih =>
    intro s a h
    rcases List.mem_cons.mp h with h | h
    · exact ⟨0, Nat.succ_pos m, by simp [h]⟩
    · rcases ih (s + 1) a h with ⟨i, hi, ha⟩
      refine ⟨i + 1, Nat.succ_lt_succ hi, ?_⟩
      rw [ha]
      congr 1
      push_cast
      ring

theorem seqIds_nodup : ∀ (n : Nat) (s : Int), (seqIds s n).Nodup := by
  intro n
  induction n with
  | zero => intro s; simp [seqIds]
  | succ m ih =>
    intro s
    rw [seqIds, List.nodup_cons]
    refine ⟨?_, ih (s + 1)⟩
    intro hmem
    rcases mem_seqIds m (s + 1) _ hmem with ⟨i, _, ha⟩
    have h := Option.some.inj ha
    omega

theorem tailMeasurement_mids_sublist {χ : Type} (s : Int) (sMap : Int → Option Int)
    (long : List (MRow χ)) :
    ((tailMeasurement (some s) sMap long).map (·.measurementId)).Sublist
      (seqIds s (long.filter (fun r => r.measurementConceptId.isSome)).length) := by
  have hs : (((((assignIds s (long.filter (fun r => r.measurementConceptId.isSome)))).map
        (attachSpecimenId sMap)).filter (fun r => r.specimenId.isSome)).map
          (·.measurementId)).Sublist
      ((((assignIds s (long.filter (fun r => r.measurementConceptId.isSome)))).map
        (attachSpecimenId sMap)).map (·.measurementId)) :=
    (List.filter_sublist _).map _
  rw [List.map_map] at hs
  have hcomp : ((·.measurementId) ∘ attachSpecimenId sMap : MRow χ → Option Int) =
      (·.measurementId) := funext fun r => rfl
  rw [hcomp, assignIds_map_measurementId] at hs
  exact hs

theorem tailMeasurement_mids_nodup {χ : Type} (s : Int) (sMap : Int → Option Int)
    (long : List (MRow χ)) :
    ((tailMeasurement (some s) sMap long).map (·.measurementId)).Nodup :=
  (tailMeasurement_mids_sublist s sMap long).nodup (seqIds_nodup _ _)

theorem tailMeasurement_none_mid {χ : Type} (sMap : Int → Option Int)
    (long : List (MRow χ)) (r : MRow χ) (h : r ∈ tailMeasurement none sMap long) :
    r.measurementId = none := by
  unfold tailMeasurement assignMeasurementIds at h
  rcases List.mem_map.mp (List.mem_of_mem_filter h) with ⟨r', hr', rfl⟩
  rcases List.mem_map.mp hr' with ⟨r'', _, rfl⟩
  rfl

theorem countP_key_eq_one {α κ : Type} [DecidableEq κ] (key : α → κ) :
    ∀ (l : List α), (l.map key).Nodup → ∀ r ∈ l,
      l.countP (fun a => decide (key a = key r)) = 1 := by
  intro l
  induction l with
  | nil => intro _ r hr; simp at hr
  | cons a as ih =>
    intro hn r hr
    rw [List.map_cons, List.nodup_cons] at hn
    obtain ⟨hka, hnod⟩ := hn
    rcases List.mem_cons.mp hr with he | hr'
    · rw [List.countP_cons_of_pos _ _ (by simp [he])]
      have h0 : as.countP (fun b => decide (key b = key r)) = 0 := by
        refine List.countP_eq_zero.mpr ?_
        intro b hb hkb
        have hbr : key b = key r := of_decide_eq_true hkb
        rw [he] at hbr
        exact hka (hbr ▸ List.mem_map_of_mem key hb)
      omega
    · have hne : key a ≠ key r := by
        intro he
        exact hka (he ▸ List.mem_map_of_mem key hr')
      rw [List.countP_cons_of_neg _ _ (by simp [hne])]
      exact ih hnod r hr'

theorem frTable_of_nodup {χ : Type} (meas : List (MRow χ))
    (hn : (meas.map (·.measurementId)).Nodup) :
    frTableCorrect meas
      (meas.map (fun r => frForward r.measurementId r.specimenId) ++
       meas.map (fun r => frReverse r.measurementId r.specimenId)) := by
  have hcount : ∀ r ∈ meas,
      meas.countP (fun r' => decide (r'.measurementId = r.measurementId)) = 1 :=
    countP_key_eq_one (·.measurementId) meas hn
  refine ⟨?_, ?_, ?_⟩
  · rw [List.length_append, List.length_map, List.length_map]
    omega
  · intro r hr
    have hmid := hcount r hr
    refine ⟨?_, ?_, ?_, ?_⟩
    · rw [List.countP_append]
      have hB : (meas.map (fun r' => frReverse r'.measurementId r'.specimenId)).countP
          (fun x => decide (x.domainConceptId1 = 1147330 ∧ x.factId1 = r.measurementId)) = 0 := by
        refine List.countP_eq_zero.mpr ?_
        intro x hx
        rcases List.mem_map.mp hx with ⟨r', _, rfl⟩
        simp [frReverse]
      rw [hB, Nat.add_zero, List.countP_map]
      have hfe : ((fun x : FactRelationshipRow =>
            decide (x.domainConceptId1 = 1147330 ∧ x.factId1 = r.measurementId)) ∘
          (fun r' : MRow χ => frForward r'.measurementId r'.specimenId)) =
          (fun r' : MRow χ => decide (r'.measurementId = r.measurementId)) := by
        funext r'
        simp [frForward]
      rw [hfe, hmid]
    · rw [List.countP_append]
      have hA : (meas.map (fun r' => frForward r'.measurementId r'.specimenId)).countP
          (fun x => decide (x.domainConceptId2 = 1147330 ∧ x.factId2 = r.measurementId)) = 0 := by
        refine List.countP_eq_zero.mpr ?_
        intro x hx
        rcases List.mem_map.mp hx with ⟨r', _, rfl⟩
        simp [frForward]
      rw [hA, Nat.zero_add, List.countP_map]
      have hre : ((fun x : FactRelationshipRow =>
            decide (x.domainConceptId2 = 1147330 ∧ x.factId2 = r.measurementId)) ∘
          (fun r' : MRow χ => frReverse r'.measurementId r'.specimenId)) =
          (fun r' : MRow χ => decide (r'.measurementId = r.measurementId)) := by
        funext r'
        simp [frReverse]
      rw [hre, hmid]
    · rw [List.count_append]
      have hB : (meas.map (fun r' => frReverse r'.measurementId r'.specimenId)).count
          (frForward r.measurementId r.specimenId) = 0 := by
        refine List.count_eq_zero.mpr ?_
        intro hmem
        rcases List.mem_map.mp hmem with ⟨r', _, heq⟩
        have h32 := congrArg (·.relationshipConceptId) heq
        simp [frForward, frReverse] at h32
      rw [hB, Nat.add_zero, List.count_eq_countP, List.countP_map]
      have hub : meas.countP ((· == frForward r.measurementId r.specimenId) ∘
          (fun r' : MRow χ => frForward r'.measurementId r'.specimenId)) ≤
          meas.countP (fun r' => decide (r'.measurementId = r.measurementId)) := by
        refine List.countP_mono_left ?_
        intro r' _ hpr
        have heq : frForward r'.measurementId r'.specimenId =
            frForward r.measurementId r.specimenId := eq_of_beq hpr
        have hm : r'.measurementId = r.measurementId := congrArg (·.factId1) heq
        simp [hm]
      have hlb : 0 < meas.countP ((· == frForward r.measurementId r.specimenId) ∘
          (fun r' : MRow χ => frForward r'.measurementId r'.specimenId)) :=
        List.countP_pos_iff.mpr ⟨r, hr, by simp⟩
      omega
    · rw [List.count_append]
      have hA : (meas.map (fun r' => frForward r'.measurementId r'.specimenId)).count
          (frReverse r.measurementId r.specimenId) = 0 := by
        refine List.count_eq_zero.mpr ?_
        intro hmem
        rcases List.mem_map.mp hmem with ⟨r', _, heq⟩
        have h32 := congrArg (·.relationshipConceptId) heq
        simp [frForward, frReverse] at h32
      rw [hA, Nat.zero_add, List.count_eq_countP, List.countP_map]
      have hub : meas.countP ((· == frReverse r.measurementId r.specimenId) ∘
          (fun r' : MRow χ => frReverse r'.measurementId r'.specimenId)) ≤
          meas.countP (fun r' => decide (r'.measurementId = r.measurementId)) := by
        refine List.countP_mono_left ?_
        intro r' _ hpr
        have heq : frReverse r'.measurementId r'.specimenId =
            frReverse r.measurementId r.specimenId := eq_of_beq hpr
        have hm : r'.measurementId = r.measurementId := congrArg (·.factId2) heq
        simp [hm]
      have hlb : 0 < meas.countP ((· == frReverse r.measurementId r.specimenId) ∘
          (fun r' : MRow χ => frReverse r'.measurementId r'.specimenId)) :=
        List.countP_pos_iff.mpr ⟨r, hr, by simp⟩
      omega
  · intro x hx
    rcases List.mem_append.mp hx with hx | hx <;>
      rcases List.mem_map.mp hx with ⟨r, hr, rfl⟩
    · exact ⟨r, hr, Or.inl rfl⟩
    · exact ⟨r, hr, Or.inr rfl⟩

theorem frTable_of_tail {χ : Type} (s : Int) (sMap : Int → Option Int)
    (long : List (MRow χ)) :
    frTableCorrect (measurementTail (some s) sMap long).1
      (measurementTail (some s) sMap long).2 :=
  frTable_of_nodup _ (tailMeasurement_mids_nodup s sMap long)

/-- **C1**: in both reshapers (run with a start offset, so that measurement
ids are assigned), the generated fact_relationship table is correct in the
sense of `frTableCorrect`: it has exactly `2·n` rows; each surviving
measurement row contributes exactly one
`(1147330, measurement_id, 1147306, specimen_id, 32668)` row and exactly one
`(1147306, specimen_id, 1147330, measurement_id, 32669)` row — the only rows
referencing its `measurement_id` in a Measurement slot — and no other rows
are produced. -/
theorem fact_relationship_two_rows_each :
    (∀ (w : GenWide) (iMap pMap : String → Option Int) (sMap : Int → Option Int)
        (s : Int) (meas : List (MRow GenPayload)) (fr : List FactRelationshipRow),
      generate_genomic_measurement_dataframe w iMap pMap sMap (some s) = .ok (meas, fr) →
      frTableCorrect meas fr) ∧
    (∀ (w : GexWide) (gMap pMap : String → Option Int) (sMap : Int → Option Int) (s : Int),
      frTableCorrect (generate_gex_measurement_dataframe w gMap pMap sMap (some s)).1
        (generate_gex_measurement_dataframe w gMap pMap sMap (some s)).2) := by
  constructor
  · intro w iMap pMap sMap s meas fr h
    cases hg : genomicLongRows w iMap pMap with
    | error e =>
      rw [generate_genomic_measurement_dataframe, hg] at h
      exact absurd h (by simp [Except.map])
    | ok long =>
      rw [generate_genomic_measurement_dataframe, hg] at h
      simp only [Except.map, Except.ok.injEq] at h
      obtain ⟨rfl, rfl⟩ : meas = (measurementTail (some s) sMap long).1 ∧
          fr = (measurementTail (some s) sMap long).2 :=
        ⟨(congrArg Prod.fst h).symm, (congrArg Prod.snd h).symm⟩
      exact frTable_of_tail s sMap long
  · intro w gMap pMap sMap s
    exact frTable_of_tail s sMap (gexLongRows w gMap pMap)

/-- Witness for **C1**: one variant, one sample whose person has a specimen;
the fact_relationship table consists of exactly the forward and the reverse
row for the single surviving measurement row. -/
theorem fact_relationship_two_rows_each_witness :
    frTableCorrect
      [({ measurementId := some 1, personSourceValue := "S1",
          measurementSourceValue := "v1",
          payload := { valueSourceValue := "A/G", status := some "positive",
                       valueAsNumber := some 1, valueAsConceptId := some 9191 },
          personId := some 1, measurementConceptId := some 100,
          specimenId := some 11 } : MRow GenPayload)]
      [frForward (some 1) (some 11), frReverse (some 1) (some 11)] :=
  fact_relationship_two_rows_each.1
    ⟨[("v1", [some "A/G_positive"])], ["S1"]⟩
    (fun g => if g = "v1" then some 100 else none)
    (fun p => if p = "S1" then some 1 else none)
    (fun pid => if pid = 1 then some 11 else none)
    1 _ _ (by decide)

/-- **C2** (counterexample): with start offset 1, a matrix whose first melted
row (sample S1) survives the concept filter but is dropped by the specimen
filter leaves the final table holding the single id 2 — the ids of the final
measurement table do not start at the offset and are not compact with
respect to the surviving rows (they would have to be `seqIds 1 1 = [1]`),
because ids are assigned *before* the specimen filter. -/
theorem measurement_id_gap_counterexample :
    generate_genomic_measurement_dataframe
        ⟨[("v1", [some "A/G_positive", some "A/G_positive"])], ["S1", "S2"]⟩
        (fun g => if g = "v1" then some 100 else none)
        (fun p => if p = "S1" then some 1 else if p = "S2" then some 2 else none)
        (fun pid => if pid = 2 then some 22 else none)
        (some 1) =
      .ok ([({ measurementId := some 2, personSourceValue := "S2",
               measurementSourceValue := "v1",
               payload := { valueSourceValue := "A/G", status := some "positive",
                            valueAsNumber := some 1, valueAsConceptId := some 9191 },
               personId := some 2, measurementConceptId := some 100,
               specimenId := some 22 } : MRow GenPayload)],
           [frForward (some 2) (some 22), frReverse (some 2) (some 22)]) ∧
    seqIds 1 1 = [some 1] ∧
    ([some 2] : List (Option Int)) ≠ seqIds 1 1 := by
  decide

/-- **C2** (amended): measurement ids are assigned after the
`measurement_concept_id` filter but *before* the `specimen_id` filter: at the
moment of assignment they are sequential and compact from the offset over the
concept-filtered rows in pre-filter (melt) order; the final table keeps a
strictly increasing, order-preserving subsequence of that numbering — with
gaps wherever the specimen filter dropped a row — and when no offset is given
the ids are null (not defaulted to 1). -/
theorem measurement_id_assignment :
    (∀ {χ : Type} (s : Int) (l : List (MRow χ)),
      (assignIds s l).map (·.measurementId) = seqIds s l.length) ∧
    (∀ (w : GenWide) (iMap pMap : String → Option Int) (sMap : Int → Option Int)
        (s : Int) (meas : List (MRow GenPayload)) (fr : List FactRelationshipRow),
      generate_genomic_measurement_dataframe w iMap pMap sMap (some s) = .ok (meas, fr) →
      ∃ k, (meas.map (·.measurementId)).Sublist (seqIds s k)) ∧
    (∀ (w : GenWide) (iMap pMap : String → Option Int) (sMap : Int → Option Int)
        (meas : List (MRow GenPayload)) (fr : List FactRelationshipRow),
      generate_genomic_measurement_dataframe w iMap pMap sMap none = .ok (meas, fr) →
      ∀ r ∈ meas, r.measurementId = none) ∧
    (∀ (w : GexWide) (gMap pMap : String → Option Int) (sMap : Int → Option Int) (s : Int),
      ∃ k, (((generate_gex_measurement_dataframe w gMap pMap sMap (some s)).1).map
        (·.measurementId)).Sublist (seqIds s k)) ∧
    (∀ (w : GexWide) (gMap pMap : String → Option Int) (sMap : Int → Option Int)
        (r : MRow GexPayload),
      r ∈ (generate_gex_measurement_dataframe w gMap pMap sMap none).1 →
      r.measurementId = none) := by
  refine ⟨?_, ?_, ?_, ?_, ?_⟩
  · intro χ s l
    exact assignIds_map_measurementId l s
  · intro w iMap pMap sMap s meas fr h
    cases hg : genomicLongRows w iMap pMap with
    | error e =>
      rw [generate_genomic_measurement_dataframe, hg] at h
      exact absurd h (by simp [Except.map])
    | ok long =>
      rw [generate_genomic_measurement_dataframe, hg] at h
      simp only [Except.map, Except.ok.injEq] at h
      obtain ⟨rfl, _⟩ : meas = (measurementTail (some s) sMap long).1 ∧
          fr = (measurementTail (some s) sMap long).2 :=
        ⟨(congrArg Prod.fst h).symm, (congrArg Prod.snd h).symm⟩
      exact ⟨_, tailMeasurement_mids_sublist s sMap long⟩
  · intro w iMap pMap sMap meas fr h
    cases hg : genomicLongRows w iMap pMap with
    | error e =>
      rw [generate_genomic_measurement_dataframe, hg] at h
      exact absurd h (by simp [Except.map])
    | ok long =>
      rw [generate_genomic_measurement_dataframe, hg] at h
      simp only [Except.map, Except.ok.injEq] at h
      obtain ⟨rfl, _⟩ : meas = (measurementTail none sMap long).1 ∧
          fr = (measurementTail none sMap long).2 :=
        ⟨(congrArg Prod.fst h).symm, (congrArg Prod.snd h).symm⟩
      exact tailMeasurement_none_mid sMap long
  · intro w gMap pMap sMap s
    exact ⟨_, tailMeasurement_mids_sublist s sMap (gexLongRows w gMap pMap)⟩
  · intro w gMap pMap sMap r hr
    exact tailMeasurement_none_mid sMap (gexLongRows w gMap pMap) r hr

/-! ### C6: the z-score denominator -/

theorem sumSqDev_nonneg (l : List ℚ) : 0 ≤ sumSqDev l := by
  refine List.sum_nonneg ?_
  intro x hx
  rcases List.mem_map.mp hx with ⟨y, _, rfl⟩
  positivity

theorem sumSqDev_subsingleton : ∀ l : List ℚ, l.length ≤ 1 → sumSqDev l = 0
  | [], _ => rfl
  | [x], _ => by simp [sumSqDev, rowMean]
  | _ :: _ :: _, h => by simp at h

theorem varSamp_eq_zero_iff (l : List ℚ) : varSamp l = 0 ↔ sumSqDev l = 0 := by
  constructor
  · intro h
    rcases div_eq_zero_iff.mp h with h | h
    · exact h
    · have h1 : (l.length : ℚ) = 1 := by linarith
      have h2 : l.length = 1 := by exact_mod_cast h1
      exact sumSqDev_subsingleton l (by omega)
  · intro h
    rw [varSamp, h, zero_div]

theorem stdSqReplaced_pos (l : List ℚ) (v : ℚ) (h : stdSqReplaced l = some v) : 0 < v := by
  unfold stdSqReplaced at h
  by_cases h0 : varSamp l = 0
  · simp [h0] at h
  · rw [if_neg h0] at h
    obtain rfl : varSamp l = v := Option.some.inj h
    have hS : 0 ≤ sumSqDev l := sumSqDev_nonneg l
    have hS0 : sumSqDev l ≠ 0 := fun hz => h0 ((varSamp_eq_zero_iff l).mpr hz)
    have hlen : 1 ≤ l.length := by
      by_contra hlt
      exact hS0 (sumSqDev_subsingleton l (by omega))
    have hd : (0 : ℚ) ≤ (l.length : ℚ) - 1 := by
      have : (1 : ℚ) ≤ (l.length : ℚ) := by exact_mod_cast hlen
      linarith
    have hd0 : (l.length : ℚ) - 1 ≠ 0 := by
      intro hz
      rw [varSamp, hz, div_zero] at h0
      exact h0 rfl
    exact div_pos (lt_of_le_of_ne hS (Ne.symm hS0)) (lt_of_le_of_ne hd (Ne.symm hd0))

/-- The strict-inequality comparisons of the float z-score `d / √v` against
the ±1 thresholds, expressed on the pair representation: for `v > 0`,
`z > 1 ↔ d > 0 ∧ d² > v` and `z < -1 ↔ d < 0 ∧ d² > v`.  This justifies the
rational `classifyZ` as a faithful rendering of the source's `classify`. -/
theorem zscore_real_compare (d v : ℝ) (hv : 0 < v) :
    (1 < d / Real.sqrt v ↔ (0 < d ∧ v < d ^ 2)) ∧
    (d / Real.sqrt v < -1 ↔ (d < 0 ∧ v < d ^ 2)) := by
  have hs : 0 < Real.sqrt v := Real.sqrt_pos.mpr hv
  constructor
  · rw [lt_div_iff₀ hs, one_mul]
    constructor
    · intro h
      have hd : 0 < d := lt_trans hs h
      exact ⟨hd, (Real.sqrt_lt' hd).mp h⟩
    · intro ⟨hd, h⟩
      exact (Real.sqrt_lt' hd).mpr h
  · rw [div_lt_iff₀ hs, neg_one_mul]
    constructor
    · intro h
      have hd : d < 0 := lt_trans h (by linarith)
      refine ⟨hd, ?_⟩
      have h' : Real.sqrt v < -d := by linarith
      have := (Real.sqrt_lt' (by linarith : (0:ℝ) < -d)).mp h'
      calc v < (-d) ^ 2 := this
        _ = d ^ 2 := by ring
    · intro ⟨hd, h⟩
      have h' : Real.sqrt v < -d :=
        (Real.sqrt_lt' (by linarith : (0:ℝ) < -d)).mpr (by nlinarith)
      linarith

/-- `classifyZ` agrees with the literal float comparisons of the source's
`classify` on the real z-score `num / √v`. -/
theorem classifyZ_matches_real (num v : ℚ) (hv : 0 < v) :
    (1 < (num : ℝ) / Real.sqrt (v : ℝ) → classifyZ num (some v) = some high_concept_id) ∧
    ((num : ℝ) / Real.sqrt (v : ℝ) < -1 → classifyZ num (some v) = some low_concept_id) ∧
    (-1 ≤ (num : ℝ) / Real.sqrt (v : ℝ) → (num : ℝ) / Real.sqrt (v : ℝ) ≤ 1 →
      classifyZ num (some v) = some ref_concept_id) := by
  have hvr : (0 : ℝ) < (v : ℝ) := by exact_mod_cast hv
  have hb := zscore_real_compare (num : ℝ) (v : ℝ) hvr
  have hcast1 : ((0 : ℝ) < (num : ℝ) ∧ (v : ℝ) < (num : ℝ) ^ 2) ↔ (0 < num ∧ v < num ^ 2) := by
    constructor <;> intro ⟨h1, h2⟩ <;> exact ⟨by exact_mod_cast h1, by exact_mod_cast h2⟩
  have hcast2 : ((num : ℝ) < 0 ∧ (v : ℝ) < (num : ℝ) ^ 2) ↔ (num < 0 ∧ v < num ^ 2) := by
    constructor <;> intro ⟨h1, h2⟩ <;> exact ⟨by exact_mod_cast h1, by exact_mod_cast h2⟩
  refine ⟨?_, ?_, ?_⟩
  · intro h
    have hq : 0 < num ∧ v < num ^ 2 := hcast1.mp (hb.1.mp h)
    show (if 0 < num ∧ v < num ^ 2 then some high_concept_id
      else if num < 0 ∧ v < num ^ 2 then some low_concept_id
      else some ref_concept_id) = some high_concept_id
    rw [if_pos hq]
  · intro h
    have hq : num < 0 ∧ v < num ^ 2 := hcast2.mp (hb.2.mp h)
    have hnotpos : ¬(0 < num ∧ v < num ^ 2) := fun hc => absurd hq.1 (by linarith [hc.1])
    show (if 0 < num ∧ v < num ^ 2 then some high_concept_id
      else if num < 0 ∧ v < num ^ 2 then some low_concept_id
      else some ref_concept_id) = some low_concept_id
    rw [if_neg hnotpos, if_pos hq]
  · intro h1 h2
    have hq1 : ¬(0 < num ∧ v < num ^ 2) := fun hc =>
      absurd (hb.1.mpr (hcast1.mpr hc)) (by linarith)
    have hq2 : ¬(num < 0 ∧ v < num ^ 2) := fun hc =>
      absurd (hb.2.mpr (hcast2.mpr hc)) (by linarith)
    show (if 0 < num ∧ v < num ^ 2 then some high_concept_id
      else if num < 0 ∧ v < num ^ 2 then some low_concept_id
      else some ref_concept_id) = some ref_concept_id
    rw [if_neg hq1, if_neg hq2]

/-- The square of the real z-score `(x - rowMean) / √varSamp` is exactly the
rational `zscoreSq` carried by the embedding. -/
theorem zscoreSq_is_real_square (x : ℚ) (l : List ℚ) (v : ℚ)
    (h : stdSqReplaced l = some v) :
    (((x - rowMean l : ℚ) : ℝ) / Real.sqrt (v : ℝ)) ^ 2 =
      (((x - rowMean l) ^ 2 / v : ℚ) : ℝ) ∧
    zscoreSq x l = some ((x - rowMean l) ^ 2 / v) := by
  have hv : 0 < v := stdSqReplaced_pos l v h
  have hvr : (0 : ℝ) ≤ (v : ℝ) := by positivity
  constructor
  · rw [div_pow, Real.sq_sqrt hvr]
    push_cast
    ring
  · rw [zscoreSq, h]
    rfl

theorem zscoreSq_formula (x : ℚ) (l : List ℚ) (hS : sumSqDev l ≠ 0) :
    zscoreSq x l = some ((x - rowMean l) ^ 2 * ((l.length : ℚ) - 1) / sumSqDev l) := by
  have hv : varSamp l ≠ 0 := fun hz => hS ((varSamp_eq_zero_iff l).mp hz)
  rw [zscoreSq, stdSqReplaced, if_neg hv]
  simp only [Option.map_some']
  congr 1
  rw [varSamp, div_div_eq_mul_div]

theorem stdSqReplaced_eq_none_iff (l : List ℚ) :
    stdSqReplaced l = none ↔ sumSqDev l = 0 := by
  rw [stdSqReplaced]
  by_cases h : varSamp l = 0
  · simp [h, (varSamp_eq_zero_iff l).mp h]
  · have hs : sumSqDev l ≠ 0 := fun hz => h ((varSamp_eq_zero_iff l).mpr hz)
    simp [h, hs]

theorem gexLongRows_vacid (w : GexWide) (gMap pMap : String → Option Int) :
    ∀ r ∈ gexLongRows w gMap pMap,
      r.payload.valueAsConceptId = classifyCell r.payload.zscore := by
  intro r hr
  unfold gexLongRows at hr
  rcases List.mem_map.mp hr with ⟨p, _, rfl⟩
  rfl

theorem countP_assignIds_person {χ : Type} (sMap : Int → Option Int) :
    ∀ (l : List (MRow χ)) (s : Int),
      (assignIds s l).countP (fun r => (r.personId.bind sMap).isSome) =
        l.countP (fun r => (r.personId.bind sMap).isSome) := by
  intro l
  induction l with
  | nil => intro s; rfl
  | cons r rs ih =>
    intro s
    rw [assignIds, List.countP_cons, List.countP_cons, ih (s + 1)]

theorem countP_assign_person {χ : Type} (sMap : Int → Option Int) :
    ∀ (start : Option Int) (l : List (MRow χ)),
      (assignMeasurementIds start l).countP (fun r => (r.personId.bind sMap).isSome) =
        l.countP (fun r => (r.personId.bind sMap).isSome) := by
  intro start
  cases start with
  | none =>
    intro l
    show (l.map _).countP _ = _
    rw [List.countP_map]
    rfl
  | some s =>
    intro l
    exact countP_assignIds_person sMap l s

/-- Which long rows survive into the final measurement table is decided only
by the `measurement_concept_id` and `specimen_id` lookups — the value,
z-score and classification columns play no part (a row with an unclassified
z-score is not dropped for that reason). -/
theorem tailMeasurement_length {χ : Type} (start : Option Int)
    (sMap : Int → Option Int) (long : List (MRow χ)) :
    (tailMeasurement start sMap long).length =
      long.countP (fun r =>
        (r.personId.bind sMap).isSome && r.measurementConceptId.isSome) := by
  unfold tailMeasurement
  rw [← List.countP_eq_length_filter, List.countP_map]
  have h1 : ((fun r : MRow χ => r.specimenId.isSome) ∘ attachSpecimenId sMap) =
      (fun r : MRow χ => (r.personId.bind sMap).isSome) := funext fun r => rfl
  rw [h1, countP_assign_person sMap start _, List.countP_filter]

/-- **C6** (counterexample): for the gene row `[0, 2]` and the cell `x = 2`,
the code's z-score (squared) is `1/2` — the divisor is the sample-corrected
`n - 1 = 1` under pandas' default `std(ddof=1)` — whereas the claim's
population-standard-deviation z-score (squared) is `1`; the two z-scores are
nonnegative with different squares, so they differ. -/
theorem zscore_population_std_counterexample :
    zscoreSq 2 [0, 2] = some (1 / 2) ∧
    specZscoreSq 2 [0, 2] = some 1 ∧
    zscoreSq 2 [0, 2] ≠ specZscoreSq 2 [0, 2] := by
  have hmean : rowMean [0, 2] = 1 := by norm_num [rowMean]
  have hssd : sumSqDev [0, 2] = 2 := by norm_num [sumSqDev, hmean]
  have hvar : varSamp [0, 2] = 2 := by norm_num [varSamp, hssd]
  have hpop : specVarPop [0, 2] = 1 := by norm_num [specVarPop, hssd]
  have h1 : zscoreSq 2 [0, 2] = some (1 / 2) := by
    norm_num [zscoreSq, stdSqReplaced, hvar, hmean]
  have h2 : specZscoreSq 2 [0, 2] = some 1 := by
    norm_num [specZscoreSq, hpop, hmean]
  refine ⟨h1, h2, ?_⟩
  rw [h1, h2]
  intro hcontra
  have := Option.some.inj hcontra
  norm_num at this

/-- **C6** (amended): the per-gene z-score divides by the *sample-corrected*
standard deviation (pandas `std` default `ddof=1`, divisor `n - 1`), not the
population standard deviation; it is null exactly when the sum of squared
deviations is zero (all values identical, or `n ≤ 1`); a null z-score is
classified null; and a row's survival is decided only by the concept-id and
specimen-id lookups, never by the z-score or classification. -/
theorem zscore_sample_std_and_null_handling :
    (∀ l : List ℚ, stdSqReplaced l = none ↔ sumSqDev l = 0) ∧
    (∀ (x : ℚ) (l : List ℚ), sumSqDev l ≠ 0 →
      zscoreSq x l = some ((x - rowMean l) ^ 2 * ((l.length : ℚ) - 1) / sumSqDev l)) ∧
    (∀ (w : GexWide) (gMap pMap : String → Option Int),
      ∀ r ∈ gexLongRows w gMap pMap,
        r.payload.valueAsConceptId = classifyCell r.payload.zscore) ∧
    (∀ num : ℚ, classifyZ num none = none) ∧
    (∀ (w : GexWide) (gMap pMap : String → Option Int) (sMap : Int → Option Int)
        (start : Option Int),
      ((generate_gex_measurement_dataframe w gMap pMap sMap start).1).length =
        (gexLongRows w gMap pMap).countP (fun r =>
          (r.personId.bind sMap).isSome && r.measurementConceptId.isSome)) := by
  refine ⟨stdSqReplaced_eq_none_iff, zscoreSq_formula, gexLongRows_vacid, ?_, ?_⟩
  · intro num; rfl
  · intro w gMap pMap sMap start
    exact tailMeasurement_length start sMap (gexLongRows w gMap pMap)

/-- Witness for **C6** (amended): the `n - 1` formula instantiated at the
row `[0, 2]` (giving `1/2`), and a concrete long row of an all-identical
gene row `[5, 5]` whose classification is null while the row itself is
retained (both persons having specimens, both long rows survive). -/
theorem zscore_sample_std_and_null_handling_witness :
    zscoreSq 2 [0, 2] =
      some ((2 - rowMean [0, 2]) ^ 2 * ((([0, 2] : List ℚ).length : ℚ) - 1) / sumSqDev [0, 2]) ∧
    (({ measurementId := none, personSourceValue := "S1", measurementSourceValue := "G1",
        payload := { valueAsNumber := 5, zscore := some (0, none), valueAsConceptId := none },
        personId := some 1, measurementConceptId := some 10,
        specimenId := none } : MRow GexPayload).payload.valueAsConceptId =
      classifyCell (some (0, none))) ∧
    ((generate_gex_measurement_dataframe ⟨[("G1", [5, 5])], ["S1", "S2"]⟩
        (fun g => if g = "G1" then some 10 else none)
        (fun p => if p = "S1" then some 1 else if p = "S2" then some 2 else none)
        (fun pid => if pid = 1 then some 11 else if pid = 2 then some 22 else none)
        (some 1)).1).length =
      (gexLongRows ⟨[("G1", [5, 5])], ["S1", "S2"]⟩
        (fun g => if g = "G1" then some 10 else none)
        (fun p => if p = "S1" then some 1 else if p = "S2" then some 2 else none)).countP
        (fun r => (r.personId.bind (fun pid =>
            if pid = 1 then some 11 else if pid = 2 then some 22 else none)).isSome &&
          r.measurementConceptId.isSome) :=
  by
  refine ⟨?_, ?_, ?_⟩
  · exact zscore_sample_std_and_null_handling.2.1 2 [0, 2]
      (by norm_num [sumSqDev, rowMean])
  · refine zscore_sample_std_and_null_handling.2.2.1 ⟨[("G1", [5, 5])], ["S1", "S2"]⟩
      (fun g => if g = "G1" then some 10 else none)
      (fun p => if p = "S1" then some 1 else if p = "S2" then some 2 else none) _ ?_
    have hgex : gexLongRows ⟨[("G1", [5, 5])], ["S1", "S2"]⟩
        (fun g => if g = "G1" then some 10 else none)
        (fun p => if p = "S1" then some 1 else if p = "S2" then some 2 else none) =
        [{ measurementId := none, personSourceValue := "S1", measurementSourceValue := "G1",
           payload := { valueAsNumber := 5, zscore := some (0, none), valueAsConceptId := none },
           personId := some 1, measurementConceptId := some 10, specimenId := none },
         { measurementId := none, personSourceValue := "S2", measurementSourceValue := "G1",
           payload := { valueAsNumber := 5, zscore := some (0, none), valueAsConceptId := none },
           personId := some 2, measurementConceptId := some 10, specimenId := none }] := by
      have h21 : ("S2" : String) ≠ "S1" := by decide
      have h12 : ("S1" : String) ≠ "S2" := by decide
      norm_num [gexLongRows, melt, List.enum, List.enumFrom, rowMean, sumSqDev, varSamp,
        stdSqReplaced, classifyCell, classifyZ, List.filter_cons, List.filter_nil, h21, h12]
    rw [hgex]
    exact List.mem_cons_self _ _
  · exact zscore_sample_std_and_null_handling.2.2.2.2 ⟨[("G1", [5, 5])], ["S1", "S2"]⟩
      (fun g => if g = "G1" then some 10 else none)
      (fun p => if p = "S1" then some 1 else if p = "S2" then some 2 else none)
      (fun pid => if pid = 1 then some 11 else if pid = 2 then some 22 else none)
      (some 1)

/-- Witness for **C2** (amended), at the counterexample input: the surviving
ids `[2]` are a subsequence of `seqIds 1 2 = [1, 2]`, and with no offset the
surviving row's id is null. -/
theorem measurement_id_assignment_witness :
    (∃ k, ([some 2] : List (Option Int)).Sublist (seqIds 1 k)) ∧
    (([({ measurementId := some 2, personSourceValue := "S2",
          measurementSourceValue := "v1",
          payload := { valueSourceValue := "A/G", status := some "positive",
                       valueAsNumber := some 1, valueAsConceptId := some 9191 },
          personId := some 2, measurementConceptId := some 100,
          specimenId := some 22 } : MRow GenPayload)].map (·.measurementId)) =
      [some 2]) :=
  ⟨measurement_id_assignment.2.1
      ⟨[("v1", [some "A/G_positive", some "A/G_positive"])], ["S1", "S2"]⟩
      (fun g => if g = "v1" then some 100 else none)
      (fun p => if p = "S1" then some 1 else if p = "S2" then some 2 else none)
      (fun pid => if pid = 2 then some 22 else none)
      1
      [({ measurementId := some 2, personSourceValue := "S2",
          measurementSourceValue := "v1",
          payload := { valueSourceValue := "A/G", status := some "positive",
                       valueAsNumber := some 1, valueAsConceptId := some 9191 },
          personId := some 2, measurementConceptId := some 100,
          specimenId := some 22 } : MRow GenPayload)]
      [frForward (some 2) (some 22), frReverse (some 2) (some 22)]
      (by decide),
   rfl⟩

end ODharmonizer
